import Mathlib

/-!
# wuzzlmoasta: the HTTP handlers of `cmd/wuzzlmoasta/main.go`

A shallow embedding of the request handlers, the two login gates and the
error handler of `main.go`.  A handler is a function from a request context
to an `Outcome`; the functions `users.TryLogin` and `users.IsTokenValid`
and the template engine are not defined in `main.go` and are parameters of
the handlers that call them.
-/

namespace Wuzzlmoasta

/-! ## Constants of `main.go` -/

/-- Name of the cookie that carries the session token. -/
def UserSessionIdCookie : String := "UserSessionId"

/-- Key of the request-local flag written by the soft gate. -/
def UserLoggedIn : String := "loggedIn"

/-- Key of the request-local value holding the resolved identity. -/
def User : String := "user"

/-- The constant `fiber.StatusInternalServerError`. -/
def StatusInternalServerError : Int := 500

/-- The constant `fiber.StatusFound`, the default status of `c.Redirect`. -/
def StatusFound : Int := 302

/-! ## Values -/

/-- Modelled from the spec: the type `users.ViewableUser` is declared in
`pkg/users`; an Identity has a unique username and a display name. -/
structure ViewableUser where
  username : String
  displayName : String
deriving DecidableEq

/-- Go `error` values (non-nil).  `invalidUsernameOrPassword` is the sentinel
`users.InvalidUsernameOrPassword`, `new` an `errors.New` value, `wrap` an error
whose `Unwrap` gives `inner`, `fiberError` a `*fiber.Error`. -/
inductive GoError where
  | invalidUsernameOrPassword
  | new (msg : String)
  | wrap (msg : String) (inner : GoError)
  | fiberError (code : Int) (message : String)
deriving DecidableEq

/-- The walk of `errors.Is` along the `Unwrap` chain of a non-nil error. -/
def GoError.is : GoError → GoError → Bool
  | .wrap msg inner, target =>
    if GoError.wrap msg inner = target then true else GoError.is inner target
  | err, target => decide (err = target)

/-- Go `errors.Is(err, target)` for a non-nil `target`; `none` is the nil error. -/
def errorsIs (err : Option GoError) (target : GoError) : Bool :=
  match err with
  | none => false
  | some e => e.is target

/-- A dynamically typed Go value (`interface{}`) as stored in the request
locals and in a `fiber.Map`.  A `*users.ViewableUser` is `none` when nil. -/
inductive Value where
  | str (s : String)
  | bool (b : Bool)
  | viewableUser (u : ViewableUser)
  | viewableUserPtr (p : Option ViewableUser)
deriving DecidableEq

/-- A `fiber.Map`: the bindings passed to a view. -/
abbrev FiberMap := List (String × Value)

/-- A `fiber.Cookie` with the two fields the handlers set. -/
structure Cookie where
  name : String
  value : String
deriving DecidableEq

/-- Calls that leave the handler: registry lookups, login attempts, view
renderings and log lines, recorded in the order in which they are made. -/
inductive Event where
  | isTokenValid (token : String)
  | tryLogin (username password : String)
  | render (name : String) (bind : FiberMap) (layouts : List String)
  | log (err : GoError)
deriving DecidableEq

/-- The request context `*fiber.Ctx`: the request's cookies and form fields,
the request locals, the response written so far, and the recorded calls. -/
structure Ctx where
  cookies : List (String × String)
  form : List (String × String)
  locals : List (String × Value)
  status : Int
  setCookies : List Cookie
  location : Option String
  body : String
  events : List Event
deriving DecidableEq

/-- The template engine `fiber.Config.Views`: the rendered page or an error. -/
abbrev Views := String → FiberMap → List String → Except GoError String

/-- The function `users.TryLogin`: a token and a possibly nil error. -/
abbrev TryLogin := String → String → String × Option GoError

/-- The function `users.IsTokenValid`: a validity flag and a possibly nil
pointer to the identity. -/
abbrev IsTokenValid := String → Bool × Option ViewableUser

/-- What a handler does with the request: it returns `c.Next()`, it returns
an error value (possibly nil) without calling the next handler, or it panics. -/
inductive Outcome where
  | next (c : Ctx)
  | done (c : Ctx) (err : Option GoError)
  | panic (c : Ctx)
deriving DecidableEq

/-! ## The operations of `*fiber.Ctx` used by the handlers -/

/-- The lookup `c.Cookies(key)`: the request cookie, or the empty string. -/
def Ctx.Cookies (c : Ctx) (key : String) : String :=
  (c.cookies.lookup key).getD ""

/-- The lookup `c.FormValue(key)`: the form field, or the empty string. -/
def Ctx.FormValue (c : Ctx) (key : String) : String :=
  (c.form.lookup key).getD ""

/-- The read `c.Locals(key)`: the stored value, or `none` for a nil interface. -/
def Ctx.Locals (c : Ctx) (key : String) : Option Value :=
  c.locals.lookup key

/-- Replace the first entry with the given key, or append a new entry. -/
def setKey {α : Type} (key : String) (v : α) : List (String × α) → List (String × α)
  | [] => [(key, v)]
  | (k, w) :: rest => if k = key then (key, v) :: rest else (k, w) :: setKey key v rest

/-- The write `c.Locals(key, value)`. -/
def Ctx.setLocals (c : Ctx) (key : String) (v : Value) : Ctx :=
  { c with locals := setKey key v c.locals }

/-- Replace the first response cookie of the same name, or append the cookie. -/
def setCookie (ck : Cookie) : List Cookie → List Cookie
  | [] => [ck]
  | d :: rest => if d.name = ck.name then ck :: rest else d :: setCookie ck rest

/-- The call `c.Cookie(&cookie)`: set a response cookie. -/
def Ctx.Cookie (c : Ctx) (ck : Cookie) : Ctx :=
  { c with setCookies := setCookie ck c.setCookies }

/-- The call `c.Status(code)`: the status code set for the response. -/
def Ctx.Status (c : Ctx) (code : Int) : Ctx :=
  { c with status := code }

/-- The call `c.Redirect(location)`: the Location header and status 302; the
returned error is always nil. -/
def Ctx.Redirect (c : Ctx) (location : String) : Ctx :=
  { c with location := some location, status := StatusFound }

/-- The call `c.SendString(body)`; the returned error is always nil. -/
def Ctx.SendString (c : Ctx) (body : String) : Ctx :=
  { c with body := body }

/-- Append a call to the record. -/
def Ctx.record (c : Ctx) (e : Event) : Ctx :=
  { c with events := c.events ++ [e] }

/-- The call `c.Render(name, bind, layouts...)`: the body is replaced when the
engine succeeds, and the engine's error is returned otherwise. -/
def Ctx.Render (views : Views) (c : Ctx) (name : String) (bind : FiberMap)
    (layouts : List String) : Ctx × Option GoError :=
  let c := c.record (.render name bind layouts)
  match views name bind layouts with
  | .ok html => ({ c with body := html }, none)
  | .error e => (c, some e)

/-! ## The handlers of `main.go` -/

/-- The handler of `GET /`, after the hard gate. -/
def getIndex (views : Views) (c : Ctx) : Outcome :=
  match c.Locals User with
  | some (.viewableUser user) =>
    let r := c.Render views "index" [("user", .viewableUser user)] ["layouts/main"]
    .done r.1 r.2
  | _ => .panic c

/-- The handler of `GET /login`. -/
def getLogin (views : Views) (c : Ctx) : Outcome :=
  let r := c.Render views "login" [] ["layouts/main"]
  .done r.1 r.2

/-- The handler of `POST /login`. -/
def postLogin (tryLogin : TryLogin) (views : Views) (c : Ctx) : Outcome :=
  let username := c.FormValue "username"
  let password := c.FormValue "password"
  let c := c.record (.tryLogin username password)
  let res := tryLogin username password
  let cookie := res.1
  let err := res.2
  if errorsIs err .invalidUsernameOrPassword then
    let r := c.Render views "login" [("invalidLogin", .bool true)] ["layouts/main"]
    .done r.1 r.2
  else
    let c := c.Cookie { name := UserSessionIdCookie, value := cookie }
    .done (c.Redirect "/") none

/-- The catch-all handler registered last: status 404 and the 404 view. -/
def notFound (views : Views) (c : Ctx) : Outcome :=
  let r := (c.Status 404).Render views "errors/404" [] []
  .done r.1 r.2

/-- The hard gate. -/
def checkLoginOrRedirectToLoginPage (isTokenValid : IsTokenValid) (c : Ctx) : Outcome :=
  let sessionId := c.Cookies UserSessionIdCookie
  let c := c.record (.isTokenValid sessionId)
  let res := isTokenValid sessionId
  let valid := res.1
  let user := res.2
  if valid then
    match user with
    | some u => .next (c.setLocals User (.viewableUser u))
    | none => .panic c
  else
    .done (c.Redirect "/login") none

/-- The soft gate. -/
def setLoggedIn (isTokenValid : IsTokenValid) (c : Ctx) : Outcome :=
  let sessionId := c.Cookies UserSessionIdCookie
  let c := c.record (.isTokenValid sessionId)
  let res := isTokenValid sessionId
  let valid := res.1
  let user := res.2
  if valid then
    let c := c.setLocals UserLoggedIn (.str "1")
    let c := c.setLocals User (.viewableUserPtr user)
    .next c
  else
    let c := c.setLocals UserLoggedIn (.str "")
    .next c

/-- The error handler installed in `fiber.Config`; it is called with a
non-nil error. -/
def errorHandler (views : Views) (c : Ctx) (err : GoError) : Ctx × Option GoError :=
  let code : Int :=
    match err with
    | .fiberError code _ => code
    | _ => StatusInternalServerError
  let c := if code = StatusInternalServerError then c.record (.log err) else c
  let r := (c.Status code).Render views ("errors/" ++ toString code) [] []
  match r.2 with
  | some _ => ((r.1.Status StatusInternalServerError).SendString "Internal server error", none)
  | none => (r.1, none)

/-- Run the handlers of one route in order: `c.Next()` enters the next one. -/
def runHandlers : List (Ctx → Outcome) → Ctx → Outcome
  | [], c => .next c
  | h :: rest, c =>
    match h c with
    | .next c1 => runHandlers rest c1
    | o => o

/-- The route `app.Get("/", checkLoginOrRedirectToLoginPage, ...)`. -/
def routeGetIndex (isTokenValid : IsTokenValid) (views : Views) (c : Ctx) : Outcome :=
  runHandlers [checkLoginOrRedirectToLoginPage isTokenValid, getIndex views] c

/-- The context of a fresh request with the given cookies and form fields. -/
def Ctx.ofRequest (cookies form : List (String × String)) : Ctx :=
  { cookies := cookies, form := form, locals := [], status := 200, setCookies := [],
    location := none, body := "", events := [] }

/-- Modelled from the spec: the body of `users.IsTokenValid` is in `pkg/users`;
the registry contract is `resolve(token) -> Identity | Invalid`, so every
token that is accepted comes with an identity and the pointer is not nil. -/
def ResolvesIdentity (isTokenValid : IsTokenValid) : Prop :=
  ∀ t, (isTokenValid t).1 = true → (isTokenValid t).2 ≠ none

/-- The context in which an outcome leaves the request. -/
def Outcome.ctx : Outcome → Ctx
  | .next c => c
  | .done c _ => c
  | .panic c => c

/-- The request cookies a client sends back for the cookies of a response. -/
def cookieHeader (cs : List Cookie) : List (String × String) :=
  cs.map (fun ck => (ck.name, ck.value))

/-! ## Sample collaborators -/

/-- A sample identity. -/
def alice : ViewableUser := { username := "alice", displayName := "Alice" }

/-- A registry holding one live session, of `alice`. -/
def registryAlice : IsTokenValid :=
  fun t => if t = "tok-alice" then (true, some alice) else (false, none)

/-- A registry that accepts every token and returns a nil pointer with it. -/
def registryNilIdentity : IsTokenValid :=
  fun _ => (true, none)

/-- A registry that accepts the empty token. -/
def registryEmptyToken : IsTokenValid :=
  fun t => if t = "" then (true, some alice) else (false, none)

/-- A login function that knows `alice` with password `secret1`. -/
def loginAlice : TryLogin :=
  fun u p => if u = "alice" ∧ p = "secret1" then ("tok-alice", none)
    else ("", some .invalidUsernameOrPassword)

/-- A login function whose token generation fails. -/
def loginFaulty : TryLogin :=
  fun _ _ => ("", some (.new "token generation failed"))

/-- An engine that renders every view to its own name. -/
def viewsAll : Views := fun name _ _ => .ok name

/-- An engine that has the index and login views and no error views. -/
def viewsNoErrorPages : Views :=
  fun name _ _ => if name = "index" ∨ name = "login" then .ok name
    else .error (.new "template does not exist")

/-- A request carrying the session cookie of `alice`. -/
def requestAlice : Ctx := Ctx.ofRequest [("UserSessionId", "tok-alice")] []

/-- A request without cookies. -/
def requestAnonymous : Ctx := Ctx.ofRequest [] []

/-- A login submission with the right password. -/
def submitAlice : Ctx := Ctx.ofRequest [] [("username", "alice"), ("password", "secret1")]

/-- A login submission with a wrong password. -/
def submitWrong : Ctx := Ctx.ofRequest [] [("username", "alice"), ("password", "wrong")]

/-! ## Facts about the key-value stores -/

theorem lookup_setKey_self {α : Type} (key : String) (v : α) (l : List (String × α)) :
    (setKey key v l).lookup key = some v := by
  induction l with
  | nil => simp [setKey, List.lookup]
  | cons kv rest ih =>
    obtain ⟨k, w⟩ := kv
    by_cases hk : k = key
    · simp [setKey, hk, List.lookup]
    · have hb : (key == k) = false := by
        simpa using fun h => hk h.symm
      simp [setKey, hk, List.lookup, hb, ih]

theorem lookup_setKey_other {α : Type} (key other : String) (v : α) (l : List (String × α))
    (hne : other ≠ key) : (setKey key v l).lookup other = l.lookup other := by
  induction l with
  | nil =>
    have hb : (other == key) = false := by simpa using hne
    simp [setKey, List.lookup, hb]
  | cons kv rest ih =>
    obtain ⟨k, w⟩ := kv
    by_cases hk : k = key
    · subst hk
      have hb : (other == k) = false := by simpa using hne
      simp [setKey, List.lookup, hb]
    · by_cases ho : other = k
      · subst ho
        simp [setKey, hk, List.lookup]
      · have hb : (other == k) = false := by simpa using ho
        simp [setKey, hk, List.lookup, hb, ih]

theorem find_setCookie (ck : Cookie) (l : List Cookie) :
    (setCookie ck l).find? (fun d => decide (d.name = ck.name)) = some ck := by
  induction l with
  | nil => simp [setCookie]
  | cons d rest ih =>
    by_cases hd : d.name = ck.name
    · simp [setCookie, hd]
    · simp [setCookie, hd, List.find?, ih]

theorem lookup_cookieHeader (name : String) (ck : Cookie) (l : List Cookie)
    (hname : ck.name = name)
    (hfind : l.find? (fun d => decide (d.name = name)) = some ck) :
    (cookieHeader l).lookup name = some ck.value := by
  induction l with
  | nil => simp at hfind
  | cons d rest ih =>
    by_cases hd : d.name = name
    · have hck : d = ck := by simpa [List.find?, hd] using hfind
      subst hck
      simp [cookieHeader, List.lookup, hd]
    · have hrest : rest.find? (fun d => decide (d.name = name)) = some ck := by
        simpa [List.find?, hd] using hfind
      have hb : (name == d.name) = false := by
        simpa using fun h => hd h.symm
      have := ih hrest
      simp only [cookieHeader] at this
      simp [cookieHeader, List.lookup, hb, this]

theorem resolvesIdentity_registryAlice : ResolvesIdentity registryAlice := by
  intro t ht
  by_cases h : t = "tok-alice" <;> simp [registryAlice, h] at ht ⊢

/-! ## The hard gate -/

/-- C1 refuted: with a registry that accepts the cookie value and returns a
nil pointer with it, the token is accepted and yet the hard gate panics on the
dereference `*user`: it neither passes control to the next handler nor
redirects to `/login`. -/
theorem checkLogin_accepted_nil_identity_panics :
    (registryNilIdentity (requestAlice.Cookies UserSessionIdCookie)).1 = true ∧
    checkLoginOrRedirectToLoginPage registryNilIdentity requestAlice = .panic
      { cookies := [("UserSessionId", "tok-alice")], form := [], locals := [], status := 200,
        setCookies := [], location := none, body := "",
        events := [.isTokenValid "tok-alice"] } ∧
    (∀ c1, checkLoginOrRedirectToLoginPage registryNilIdentity requestAlice ≠ .next c1) ∧
    (∀ c1 err, checkLoginOrRedirectToLoginPage registryNilIdentity requestAlice
      ≠ .done c1 err) := by
  have hpanic : checkLoginOrRedirectToLoginPage registryNilIdentity requestAlice = .panic
      { cookies := [("UserSessionId", "tok-alice")], form := [], locals := [], status := 200,
        setCookies := [], location := none, body := "",
        events := [.isTokenValid "tok-alice"] } := by
    decide
  refine ⟨by decide, hpanic, ?_, ?_⟩
  · intro c1 hc1
    rw [hpanic] at hc1
    cases hc1
  · intro c1 err hc1
    rw [hpanic] at hc1
    cases hc1

/-- C1 as amended: when `users.IsTokenValid` returns a non-nil pointer with
every token it accepts, the hard gate passes control to the next handler
exactly when `users.IsTokenValid` accepts the value of the `UserSessionId`
cookie; in every other case it returns a redirect to `/login` without calling
the next handler and leaves the request locals, the `user` key included, as
they were. -/
theorem checkLogin_next_iff_token_valid (isTokenValid : IsTokenValid) (c : Ctx)
    (hreg : ResolvesIdentity isTokenValid) :
    ((∃ c1, checkLoginOrRedirectToLoginPage isTokenValid c = .next c1) ↔
        (isTokenValid (c.Cookies UserSessionIdCookie)).1 = true) ∧
    ((isTokenValid (c.Cookies UserSessionIdCookie)).1 ≠ true →
        ∃ c1, checkLoginOrRedirectToLoginPage isTokenValid c = .done c1 none ∧
          c1.location = some "/login" ∧ c1.status = StatusFound ∧
          c1.locals = c.locals ∧ c1.Locals User = c.Locals User) := by
  have hnil := hreg (c.Cookies UserSessionIdCookie)
  cases hv : (isTokenValid (c.Cookies UserSessionIdCookie)).1 with
  | false =>
    simp [checkLoginOrRedirectToLoginPage, hv, Ctx.Redirect, Ctx.record, Ctx.Locals]
  | true =>
    cases hu : (isTokenValid (c.Cookies UserSessionIdCookie)).2 with
    | none => exact absurd hu (hnil hv)
    | some u => simp [checkLoginOrRedirectToLoginPage, hv, hu]

theorem checkLogin_next_iff_token_valid_witness :
    ResolvesIdentity registryAlice ∧
    (((∃ c1, checkLoginOrRedirectToLoginPage registryAlice requestAlice = .next c1) ↔
        (registryAlice (requestAlice.Cookies UserSessionIdCookie)).1 = true) ∧
    ((registryAlice (requestAlice.Cookies UserSessionIdCookie)).1 ≠ true →
        ∃ c1, checkLoginOrRedirectToLoginPage registryAlice requestAlice = .done c1 none ∧
          c1.location = some "/login" ∧ c1.status = StatusFound ∧
          c1.locals = requestAlice.locals ∧ c1.Locals User = requestAlice.Locals User)) :=
  ⟨resolvesIdentity_registryAlice,
    checkLogin_next_iff_token_valid registryAlice requestAlice resolvesIdentity_registryAlice⟩

/-! ## The login submission -/

theorem postLogin_of_not_invalid (tryLogin : TryLogin) (views : Views) (c : Ctx)
    (herr : errorsIs (tryLogin (c.FormValue "username") (c.FormValue "password")).2
      .invalidUsernameOrPassword = false) :
    postLogin tryLogin views c = .done
      (((c.record (.tryLogin (c.FormValue "username") (c.FormValue "password"))).Cookie
        { name := UserSessionIdCookie,
          value := (tryLogin (c.FormValue "username") (c.FormValue "password")).1 }).Redirect
        "/") none := by
  simp [postLogin, herr]

theorem postLogin_of_invalid (tryLogin : TryLogin) (views : Views) (c : Ctx)
    (herr : errorsIs (tryLogin (c.FormValue "username") (c.FormValue "password")).2
      .invalidUsernameOrPassword = true) :
    postLogin tryLogin views c = .done
      ((c.record (.tryLogin (c.FormValue "username") (c.FormValue "password"))).Render views
        "login" [("invalidLogin", .bool true)] ["layouts/main"]).1
      ((c.record (.tryLogin (c.FormValue "username") (c.FormValue "password"))).Render views
        "login" [("invalidLogin", .bool true)] ["layouts/main"]).2 := by
  simp [postLogin, herr]

/-- C4: when `users.TryLogin` returns token `t` and a nil error, the handler of
`POST /login` sets the cookie `UserSessionId` to `t` (the only cookie of a
response that had none), redirects to `/` and renders no view. -/
theorem postLogin_success_sets_cookie_and_redirects (tryLogin : TryLogin) (views : Views)
    (c : Ctx) (t : String)
    (hlogin : tryLogin (c.FormValue "username") (c.FormValue "password") = (t, none)) :
    ∃ c1, postLogin tryLogin views c = .done c1 none ∧
      c1.setCookies = setCookie { name := "UserSessionId", value := t } c.setCookies ∧
      (c.setCookies = [] → c1.setCookies = [{ name := "UserSessionId", value := t }]) ∧
      c1.location = some "/" ∧ c1.status = StatusFound ∧
      c1.events = c.events ++ [.tryLogin (c.FormValue "username") (c.FormValue "password")] ∧
      c1.body = c.body := by
  have herr : errorsIs (tryLogin (c.FormValue "username") (c.FormValue "password")).2
      .invalidUsernameOrPassword = false := by
    simp [hlogin, errorsIs]
  refine ⟨_, postLogin_of_not_invalid tryLogin views c herr, ?_⟩
  simp only [hlogin]
  refine ⟨rfl, ?_, rfl, rfl, rfl, rfl⟩
  intro hnone
  simp [Ctx.Redirect, Ctx.Cookie, Ctx.record, hnone, setCookie, UserSessionIdCookie]

theorem postLogin_success_sets_cookie_and_redirects_witness :
    loginAlice (submitAlice.FormValue "username") (submitAlice.FormValue "password")
        = ("tok-alice", none) ∧
    ∃ c1, postLogin loginAlice viewsAll submitAlice = .done c1 none ∧
      c1.setCookies = setCookie { name := "UserSessionId", value := "tok-alice" }
        submitAlice.setCookies ∧
      (submitAlice.setCookies = [] →
        c1.setCookies = [{ name := "UserSessionId", value := "tok-alice" }]) ∧
      c1.location = some "/" ∧ c1.status = StatusFound ∧
      c1.events = submitAlice.events ++
        [.tryLogin (submitAlice.FormValue "username") (submitAlice.FormValue "password")] ∧
      c1.body = submitAlice.body :=
  ⟨by decide,
    postLogin_success_sets_cookie_and_redirects loginAlice viewsAll submitAlice "tok-alice"
      (by decide)⟩

/-- C3: when the error of `users.TryLogin` is or wraps
`users.InvalidUsernameOrPassword`, the handler of `POST /login` renders the
`login` view with `invalidLogin = true`, sets no cookie and does not redirect. -/
theorem postLogin_invalid_rerenders_login (tryLogin : TryLogin) (views : Views) (c : Ctx)
    (herr : errorsIs (tryLogin (c.FormValue "username") (c.FormValue "password")).2
      .invalidUsernameOrPassword = true) :
    ∃ c1 err, postLogin tryLogin views c = .done c1 err ∧
      c1.events = c.events ++
        [.tryLogin (c.FormValue "username") (c.FormValue "password"),
         .render "login" [("invalidLogin", .bool true)] ["layouts/main"]] ∧
      c1.setCookies = c.setCookies ∧ c1.location = c.location ∧ c1.status = c.status := by
  refine ⟨_, _, postLogin_of_invalid tryLogin views c herr, ?_⟩
  cases hv : views "login" [("invalidLogin", .bool true)] ["layouts/main"] <;>
    simp [Ctx.Render, Ctx.record, hv]

theorem postLogin_invalid_rerenders_login_witness :
    errorsIs (loginAlice (submitWrong.FormValue "username")
      (submitWrong.FormValue "password")).2 .invalidUsernameOrPassword = true ∧
    ∃ c1 err, postLogin loginAlice viewsAll submitWrong = .done c1 err ∧
      c1.events = submitWrong.events ++
        [.tryLogin (submitWrong.FormValue "username") (submitWrong.FormValue "password"),
         .render "login" [("invalidLogin", .bool true)] ["layouts/main"]] ∧
      c1.setCookies = submitWrong.setCookies ∧ c1.location = submitWrong.location ∧
      c1.status = submitWrong.status :=
  ⟨by decide, postLogin_invalid_rerenders_login loginAlice viewsAll submitWrong (by decide)⟩

/-- C5, at a failing input: `users.TryLogin` returns an error that is not
`users.InvalidUsernameOrPassword`, and the handler of `POST /login` still sets
the `UserSessionId` cookie (to the empty token), redirects to `/` and returns
a nil error. -/
theorem postLogin_swallows_internal_fault :
    loginFaulty (submitAlice.FormValue "username") (submitAlice.FormValue "password")
      = ("", some (.new "token generation failed")) ∧
    errorsIs (some (.new "token generation failed")) .invalidUsernameOrPassword = false ∧
    postLogin loginFaulty viewsAll submitAlice = .done
      { cookies := [], form := [("username", "alice"), ("password", "secret1")],
        locals := [], status := 302,
        setCookies := [{ name := "UserSessionId", value := "" }],
        location := some "/", body := "",
        events := [.tryLogin "alice" "secret1"] } none := by
  decide

/-! ## Login, then the gate -/

theorem checkLogin_of_resolved (isTokenValid : IsTokenValid) (c : Ctx) (u : ViewableUser)
    (hresolve : isTokenValid (c.Cookies UserSessionIdCookie) = (true, some u)) :
    checkLoginOrRedirectToLoginPage isTokenValid c = .next
      ((c.record (.isTokenValid (c.Cookies UserSessionIdCookie))).setLocals User
        (.viewableUser u)) := by
  simp [checkLoginOrRedirectToLoginPage, hresolve]

/-- C2: when `users.TryLogin` returns token `t` and a nil error, the response of
`POST /login` carries the cookie `UserSessionId = t`; a later request that
sends that cookie back reads `t` from it, and when the registry resolves `t`
to identity `u` the hard gate proceeds to the next handler with exactly `u`
stored under `user`. -/
theorem login_then_gate_round_trip (tryLogin : TryLogin) (isTokenValid : IsTokenValid)
    (views : Views) (c : Ctx) (t : String) (u : ViewableUser)
    (hlogin : tryLogin (c.FormValue "username") (c.FormValue "password") = (t, none))
    (hresolve : isTokenValid t = (true, some u)) :
    ∃ c1, postLogin tryLogin views c = .done c1 none ∧
      c1.setCookies.find? (fun d => decide (d.name = "UserSessionId"))
        = some { name := "UserSessionId", value := t } ∧
      (∀ c2 : Ctx, c2.cookies = cookieHeader c1.setCookies →
        c2.Cookies UserSessionIdCookie = t) ∧
      (∀ c2 : Ctx, c2.Cookies UserSessionIdCookie = t →
        ∃ c3, checkLoginOrRedirectToLoginPage isTokenValid c2 = .next c3 ∧
          c3.Locals User = some (.viewableUser u)) := by
  have herr : errorsIs (tryLogin (c.FormValue "username") (c.FormValue "password")).2
      .invalidUsernameOrPassword = false := by
    simp [hlogin, errorsIs]
  have hfind := find_setCookie { name := "UserSessionId", value := t }
    (c.record (.tryLogin (c.FormValue "username") (c.FormValue "password"))).setCookies
  refine ⟨_, postLogin_of_not_invalid tryLogin views c herr, ?_, ?_, ?_⟩
  · simpa [hlogin, Ctx.Redirect, Ctx.Cookie, UserSessionIdCookie] using hfind
  · intro c2 hc2
    have hlook := lookup_cookieHeader "UserSessionId" { name := "UserSessionId", value := t }
      _ rfl hfind
    simp only [hlogin, Ctx.Redirect, Ctx.Cookie, UserSessionIdCookie] at hc2
    simp [Ctx.Cookies, UserSessionIdCookie, hc2, hlook]
  · intro c2 hc2
    have hres : isTokenValid (c2.Cookies UserSessionIdCookie) = (true, some u) := by
      rw [hc2]; exact hresolve
    refine ⟨_, checkLogin_of_resolved isTokenValid c2 u hres, ?_⟩
    simp [Ctx.Locals, Ctx.setLocals, lookup_setKey_self]

theorem login_then_gate_round_trip_witness :
    loginAlice (submitAlice.FormValue "username") (submitAlice.FormValue "password")
        = ("tok-alice", none) ∧
    registryAlice "tok-alice" = (true, some alice) ∧
    ∃ c1, postLogin loginAlice viewsAll submitAlice = .done c1 none ∧
      c1.setCookies.find? (fun d => decide (d.name = "UserSessionId"))
        = some { name := "UserSessionId", value := "tok-alice" } ∧
      (∀ c2 : Ctx, c2.cookies = cookieHeader c1.setCookies →
        c2.Cookies UserSessionIdCookie = "tok-alice") ∧
      (∀ c2 : Ctx, c2.Cookies UserSessionIdCookie = "tok-alice" →
        ∃ c3, checkLoginOrRedirectToLoginPage registryAlice c2 = .next c3 ∧
          c3.Locals User = some (.viewableUser alice)) :=
  ⟨by decide, by decide,
    login_then_gate_round_trip loginAlice registryAlice viewsAll submitAlice "tok-alice" alice
      (by decide) (by decide)⟩

/-! ## The empty cookie -/

/-- C6 refuted: for a request without cookies the hard gate calls
`users.IsTokenValid` with the empty token, and with a registry that accepts
the empty token it passes control to the next handler instead of redirecting. -/
theorem checkLogin_empty_cookie_looks_up_registry :
    requestAnonymous.Cookies UserSessionIdCookie = "" ∧
    (checkLoginOrRedirectToLoginPage registryAlice requestAnonymous).ctx.events
      = [.isTokenValid ""] ∧
    checkLoginOrRedirectToLoginPage registryEmptyToken requestAnonymous = .next
      { cookies := [], form := [], locals := [("user", .viewableUser alice)], status := 200,
        setCookies := [], location := none, body := "", events := [.isTokenValid ""] } := by
  decide

/-- C6 as amended: for a request whose `UserSessionId` cookie is missing or
empty the hard gate makes one call of `users.IsTokenValid`, with the empty
token, and it returns the redirect to `/login` exactly when that call rejects
the empty token. -/
theorem checkLogin_empty_cookie_follows_registry (isTokenValid : IsTokenValid) (c : Ctx)
    (hempty : c.Cookies UserSessionIdCookie = "") :
    (checkLoginOrRedirectToLoginPage isTokenValid c).ctx.events
      = c.events ++ [.isTokenValid ""] ∧
    ((∃ c1, checkLoginOrRedirectToLoginPage isTokenValid c = .done c1 none ∧
        c1.location = some "/login" ∧ c1.status = StatusFound) ↔
      (isTokenValid "").1 = false) := by
  cases hv : (isTokenValid "").1 with
  | false =>
    simp [checkLoginOrRedirectToLoginPage, hempty, hv, Outcome.ctx, Ctx.Redirect, Ctx.record]
  | true =>
    cases hu : (isTokenValid "").2 <;>
      simp [checkLoginOrRedirectToLoginPage, hempty, hv, hu, Outcome.ctx, Ctx.setLocals,
        Ctx.record]

theorem checkLogin_empty_cookie_follows_registry_witness :
    requestAnonymous.Cookies UserSessionIdCookie = "" ∧
    (checkLoginOrRedirectToLoginPage registryAlice requestAnonymous).ctx.events
      = requestAnonymous.events ++ [.isTokenValid ""] ∧
    ((∃ c1, checkLoginOrRedirectToLoginPage registryAlice requestAnonymous = .done c1 none ∧
        c1.location = some "/login" ∧ c1.status = StatusFound) ↔
      (registryAlice "").1 = false) :=
  ⟨by decide,
    checkLogin_empty_cookie_follows_registry registryAlice requestAnonymous (by decide)⟩

/-! ## The soft gate -/

/-- C7: the soft gate always passes control to the next handler and never
redirects; it stores `"1"` under `loggedIn` exactly when `users.IsTokenValid`
accepts the cookie value and `""` otherwise, and only in the accepted case
does it write the `user` key. -/
theorem setLoggedIn_annotates_and_continues (isTokenValid : IsTokenValid) (c : Ctx) :
    ∃ c1, setLoggedIn isTokenValid c = .next c1 ∧
      c1.location = c.location ∧ c1.status = c.status ∧ c1.body = c.body ∧
      (c1.Locals UserLoggedIn = some (.str "1") ↔
        (isTokenValid (c.Cookies UserSessionIdCookie)).1 = true) ∧
      (c1.Locals UserLoggedIn = some (.str "") ↔
        (isTokenValid (c.Cookies UserSessionIdCookie)).1 = false) ∧
      ((isTokenValid (c.Cookies UserSessionIdCookie)).1 = true →
        c1.Locals User
          = some (.viewableUserPtr (isTokenValid (c.Cookies UserSessionIdCookie)).2)) ∧
      ((isTokenValid (c.Cookies UserSessionIdCookie)).1 = false →
        c1.locals = setKey UserLoggedIn (.str "") c.locals ∧
        c1.Locals User = c.Locals User) := by
  have hne : UserLoggedIn ≠ User := by decide
  cases hv : (isTokenValid (c.Cookies UserSessionIdCookie)).1 with
  | false =>
    refine ⟨(c.record (.isTokenValid (c.Cookies UserSessionIdCookie))).setLocals
      UserLoggedIn (.str ""), ?_, rfl, rfl, rfl, ?_⟩
    · simp [setLoggedIn, hv]
    · simp [Ctx.Locals, Ctx.setLocals, Ctx.record, lookup_setKey_self,
        lookup_setKey_other UserLoggedIn User _ _ hne.symm]
  | true =>
    refine ⟨((c.record (.isTokenValid (c.Cookies UserSessionIdCookie))).setLocals
      UserLoggedIn (.str "1")).setLocals User
        (.viewableUserPtr (isTokenValid (c.Cookies UserSessionIdCookie)).2),
      ?_, rfl, rfl, rfl, ?_⟩
    · simp [setLoggedIn, hv]
    · simp [Ctx.Locals, Ctx.setLocals, Ctx.record, lookup_setKey_self,
        lookup_setKey_other User UserLoggedIn _ _ hne]

/-- C9, at a failing input: for a request whose session token the registry
resolves to `alice`, the hard gate stores the `users.ViewableUser` value under
`user` and the soft gate stores the `*users.ViewableUser` pointer, so the two
stored values differ, and the type assertion of the `GET /` handler panics
behind the soft gate. -/
theorem gates_store_different_user_values :
    registryAlice (requestAlice.Cookies UserSessionIdCookie) = (true, some alice) ∧
    (checkLoginOrRedirectToLoginPage registryAlice requestAlice).ctx.Locals User
      = some (.viewableUser alice) ∧
    (setLoggedIn registryAlice requestAlice).ctx.Locals User
      = some (.viewableUserPtr (some alice)) ∧
    (checkLoginOrRedirectToLoginPage registryAlice requestAlice).ctx.Locals User
      ≠ (setLoggedIn registryAlice requestAlice).ctx.Locals User ∧
    runHandlers [checkLoginOrRedirectToLoginPage registryAlice, getIndex viewsAll] requestAlice
      = .done
        { cookies := [("UserSessionId", "tok-alice")], form := [],
          locals := [("user", .viewableUser alice)], status := 200, setCookies := [],
          location := none, body := "index",
          events := [.isTokenValid "tok-alice",
            .render "index" [("user", .viewableUser alice)] ["layouts/main"]] } none ∧
    runHandlers [setLoggedIn registryAlice, getIndex viewsAll] requestAlice
      = .panic
        { cookies := [("UserSessionId", "tok-alice")], form := [],
          locals := [("loggedIn", .str "1"), ("user", .viewableUserPtr (some alice))],
          status := 200, setCookies := [], location := none, body := "",
          events := [.isTokenValid "tok-alice"] } := by
  decide

/-! ## The protected page -/

theorem render_events (views : Views) (c : Ctx) (name : String) (bind : FiberMap)
    (layouts : List String) :
    (c.Render views name bind layouts).1.events = c.events ++ [.render name bind layouts] := by
  cases hv : views name bind layouts <;> simp [Ctx.Render, Ctx.record, hv]

theorem render_ok (views : Views) (c : Ctx) (name : String) (bind : FiberMap)
    (layouts : List String) (html : String) (hv : views name bind layouts = .ok html) :
    c.Render views name bind layouts
      = ({ c.record (.render name bind layouts) with body := html }, none) := by
  simp [Ctx.Render, hv]

theorem render_error (views : Views) (c : Ctx) (name : String) (bind : FiberMap)
    (layouts : List String) (e : GoError) (hv : views name bind layouts = .error e) :
    c.Render views name bind layouts = (c.record (.render name bind layouts), some e) := by
  simp [Ctx.Render, hv]

theorem getIndex_of_user (views : Views) (c : Ctx) (u : ViewableUser)
    (hlocal : c.Locals User = some (.viewableUser u)) :
    getIndex views c = .done
      (c.Render views "index" [("user", .viewableUser u)] ["layouts/main"]).1
      (c.Render views "index" [("user", .viewableUser u)] ["layouts/main"]).2 := by
  simp [getIndex, hlocal]

/-- C10: when `users.IsTokenValid` returns a non-nil pointer with every token
it accepts, the hard gate never panics, every context it hands to the next
handler holds a `users.ViewableUser` value under `user`, namely the resolved
identity, the `GET /` handler does not panic on it and renders the `index`
view with that identity bound to `user`, and the route as a whole never
panics. -/
theorem routeGetIndex_type_assertion_safe (isTokenValid : IsTokenValid) (views : Views)
    (c : Ctx) (hreg : ResolvesIdentity isTokenValid) :
    (∀ c1, checkLoginOrRedirectToLoginPage isTokenValid c ≠ .panic c1) ∧
    (∀ c1, checkLoginOrRedirectToLoginPage isTokenValid c = .next c1 →
      ∃ u, isTokenValid (c.Cookies UserSessionIdCookie) = (true, some u) ∧
        c1.Locals User = some (.viewableUser u) ∧
        getIndex views c1 = .done
          (c1.Render views "index" [("user", .viewableUser u)] ["layouts/main"]).1
          (c1.Render views "index" [("user", .viewableUser u)] ["layouts/main"]).2 ∧
        (getIndex views c1).ctx.events
          = c1.events ++ [.render "index" [("user", .viewableUser u)] ["layouts/main"]]) ∧
    (∀ c1, routeGetIndex isTokenValid views c ≠ .panic c1) := by
  have hnil := hreg (c.Cookies UserSessionIdCookie)
  cases hv : (isTokenValid (c.Cookies UserSessionIdCookie)).1 with
  | false =>
    simp [routeGetIndex, runHandlers, checkLoginOrRedirectToLoginPage, hv]
  | true =>
    cases hu : (isTokenValid (c.Cookies UserSessionIdCookie)).2 with
    | none => exact absurd hu (hnil hv)
    | some u =>
      have hres : isTokenValid (c.Cookies UserSessionIdCookie) = (true, some u) :=
        Prod.ext hv hu
      have hgate := checkLogin_of_resolved isTokenValid c u hres
      have hlocal : ((c.record (.isTokenValid (c.Cookies UserSessionIdCookie))).setLocals User
          (.viewableUser u)).Locals User = some (.viewableUser u) := by
        simp [Ctx.Locals, Ctx.setLocals, lookup_setKey_self]
      refine ⟨?_, ?_, ?_⟩
      · intro c1
        simp [hgate]
      · intro c1 hc1
        rw [hgate] at hc1
        injection hc1 with hc1
        subst hc1
        refine ⟨u, hres, hlocal, getIndex_of_user views _ u hlocal, ?_⟩
        rw [getIndex_of_user views _ u hlocal]
        exact render_events views _ _ _ _
      · intro c1
        simp [routeGetIndex, runHandlers, hgate, getIndex_of_user views _ u hlocal]

theorem routeGetIndex_type_assertion_safe_witness :
    ResolvesIdentity registryAlice ∧
    ((∀ c1, checkLoginOrRedirectToLoginPage registryAlice requestAlice ≠ .panic c1) ∧
    (∀ c1, checkLoginOrRedirectToLoginPage registryAlice requestAlice = .next c1 →
      ∃ u, registryAlice (requestAlice.Cookies UserSessionIdCookie) = (true, some u) ∧
        c1.Locals User = some (.viewableUser u) ∧
        getIndex viewsAll c1 = .done
          (c1.Render viewsAll "index" [("user", .viewableUser u)] ["layouts/main"]).1
          (c1.Render viewsAll "index" [("user", .viewableUser u)] ["layouts/main"]).2 ∧
        (getIndex viewsAll c1).ctx.events
          = c1.events ++ [.render "index" [("user", .viewableUser u)] ["layouts/main"]]) ∧
    (∀ c1, routeGetIndex registryAlice viewsAll requestAlice ≠ .panic c1)) :=
  ⟨resolvesIdentity_registryAlice,
    routeGetIndex_type_assertion_safe registryAlice viewsAll requestAlice
      resolvesIdentity_registryAlice⟩

/-! ## The error handler -/

theorem errorHandler_of_code (views : Views) (c : Ctx) (err : GoError) (code : Int)
    (hcode : (∃ msg, err = .fiberError code msg) ∨
      ((∀ k msg, err ≠ .fiberError k msg) ∧ code = 500)) :
    errorHandler views c err =
      match (((if code = 500 then c.record (.log err) else c).Status code).Render views
          ("errors/" ++ toString code) [] []).2 with
      | some _ =>
        ((((((if code = 500 then c.record (.log err) else c).Status code).Render views
          ("errors/" ++ toString code) [] []).1).Status 500).SendString
            "Internal server error", none)
      | none =>
        ((((if code = 500 then c.record (.log err) else c).Status code).Render views
          ("errors/" ++ toString code) [] []).1, none) := by
  rcases hcode with ⟨msg, rfl⟩ | ⟨hother, rfl⟩
  · rfl
  · cases err with
    | fiberError k msg => exact absurd rfl (hother k msg)
    | invalidUsernameOrPassword => rfl
    | new msg => rfl
    | wrap msg inner => rfl

/-- C8: the error handler takes the code of a `*fiber.Error` and 500 for every
other error, renders the view `errors/<code>` with the code in decimal under
that status, and when that view fails to render it answers with status 500
and the body `Internal server error`; it always returns a nil error. -/
theorem errorHandler_maps_code_to_view (views : Views) (c : Ctx) (err : GoError) (code : Int)
    (hcode : (∃ msg, err = .fiberError code msg) ∨
      ((∀ k msg, err ≠ .fiberError k msg) ∧ code = 500)) :
    (errorHandler views c err).2 = none ∧
    (errorHandler views c err).1.events
      = (if code = 500 then c.events ++ [.log err] else c.events)
        ++ [.render ("errors/" ++ toString code) [] []] ∧
    (∀ n : Nat, code = (n : Int) → "errors/" ++ toString code = "errors/" ++ Nat.repr n) ∧
    (∀ html, views ("errors/" ++ toString code) [] [] = .ok html →
      (errorHandler views c err).1.status = code ∧
      (errorHandler views c err).1.body = html) ∧
    (∀ e, views ("errors/" ++ toString code) [] [] = .error e →
      (errorHandler views c err).1.status = 500 ∧
      (errorHandler views c err).1.body = "Internal server error") := by
  rw [errorHandler_of_code views c err code hcode]
  generalize hc0 : (if code = 500 then c.record (.log err) else c).Status code = c0
  have hev : c0.events = if code = 500 then c.events ++ [.log err] else c.events := by
    subst hc0
    by_cases h500 : code = 500 <;> simp [h500, Ctx.Status, Ctx.record]
  have hst : c0.status = code := by
    subst hc0
    rfl
  cases hv : views ("errors/" ++ toString code) [] [] with
  | ok html =>
    rw [render_ok views c0 _ [] [] html hv]
    refine ⟨rfl, ?_, ?_, ?_, ?_⟩
    · simp [Ctx.record, hev]
    · intro n hn
      subst hn
      rfl
    · intro html2 hv2
      have hh : html = html2 := by simpa using hv2
      exact ⟨hst, hh⟩
    · intro e hv2
      simp at hv2
  | error e =>
    rw [render_error views c0 _ [] [] e hv]
    refine ⟨rfl, ?_, ?_, ?_, ?_⟩
    · simp [Ctx.record, Ctx.Status, Ctx.SendString, hev]
    · intro n hn
      subst hn
      rfl
    · intro html2 hv2
      simp at hv2
    · intro e2 _
      exact ⟨rfl, rfl⟩

theorem errorHandler_maps_code_to_view_witness :
    ((∃ msg, GoError.fiberError 404 "Not Found" = .fiberError 404 msg) ∨
      ((∀ k msg, GoError.fiberError 404 "Not Found" ≠ .fiberError k msg) ∧ (404 : Int) = 500)) ∧
    ((errorHandler viewsNoErrorPages requestAnonymous (.fiberError 404 "Not Found")).2 = none ∧
    (errorHandler viewsNoErrorPages requestAnonymous (.fiberError 404 "Not Found")).1.events
      = (if (404 : Int) = 500 then
          requestAnonymous.events ++ [.log (.fiberError 404 "Not Found")]
        else requestAnonymous.events)
        ++ [.render ("errors/" ++ toString (404 : Int)) [] []] ∧
    (∀ n : Nat, (404 : Int) = (n : Int) →
      "errors/" ++ toString (404 : Int) = "errors/" ++ Nat.repr n) ∧
    (∀ html, viewsNoErrorPages ("errors/" ++ toString (404 : Int)) [] [] = .ok html →
      (errorHandler viewsNoErrorPages requestAnonymous (.fiberError 404 "Not Found")).1.status
        = 404 ∧
      (errorHandler viewsNoErrorPages requestAnonymous (.fiberError 404 "Not Found")).1.body
        = html) ∧
    (∀ e, viewsNoErrorPages ("errors/" ++ toString (404 : Int)) [] [] = .error e →
      (errorHandler viewsNoErrorPages requestAnonymous (.fiberError 404 "Not Found")).1.status
        = 500 ∧
      (errorHandler viewsNoErrorPages requestAnonymous (.fiberError 404 "Not Found")).1.body
        = "Internal server error")) :=
  ⟨Or.inl ⟨"Not Found", rfl⟩,
    errorHandler_maps_code_to_view viewsNoErrorPages requestAnonymous
      (.fiberError 404 "Not Found") 404 (Or.inl ⟨"Not Found", rfl⟩)⟩

end Wuzzlmoasta
